import Mathlib

/-!
Shallow embedding of the repository source file monitor_disk_space.py
(the class DiskSpaceMonitor together with load_settings, main and the
module guard), and theorems checking the claims of the natural language
specification against it.

Conventions used throughout:
* Python strings are Lean String values; per character work is done on the
  underlying character lists.
* Python int is Int; byte counts the source keeps non-negative are Nat.
* Python float arithmetic is modelled with exact rationals.  Every value a
  claim exercises below is exactly representable in binary floating point,
  so the substitution is faithful on those inputs.
* Python code that raises is modelled with Option or Except.
* The ambient clock (datetime.now, date.today) is passed explicitly, as one
  fixed value per call, matching the specification treatment of the clock
  as an injectable capability.
-/

set_option autoImplicit false

namespace MonitorDiskSpace

/-! ## Python string primitives used by the source -/

/-- Characters treated as whitespace by the Python str.strip method and by
the regular expression whitespace class. -/
def isPySpace (c : Char) : Bool :=
  c == ' ' || c == '\t' || c == '\n' || c == '\r' || c == Char.ofNat 11 || c == Char.ofNat 12

/-- Python str.strip with no argument: remove leading and trailing whitespace. -/
def pyStrip (s : String) : String :=
  String.mk (((s.toList.dropWhile isPySpace).reverse.dropWhile isPySpace).reverse)

/-- Decimal digit test, as in the regular expression digit class. -/
def isDigitChar (c : Char) : Bool :=
  decide ('0' ≤ c) && decide (c ≤ '9')

def digitVal (c : Char) : Nat := c.toNat - '0'.toNat

def digitsToNatAux : Nat → List Char → Nat
  | acc, [] => acc
  | acc, c :: cs => digitsToNatAux (acc * 10 + digitVal c) cs

/-- Value of a string of decimal digits. -/
def digitsToNat (l : List Char) : Nat := digitsToNatAux 0 l

/-- Model of the Python builtin int applied to a string field: an optional
sign followed by at least one decimal digit.  (Python additionally accepts
surrounding whitespace, underscore separators and non ASCII digits; the
fields fed to int by this program are split on spaces and the program
itself only ever writes plain ASCII decimal numerals.) -/
def pyIntParseCore : List Char → Option Int
  | [] => none
  | c :: cs =>
    if c == '-' then
      if !cs.isEmpty && cs.all isDigitChar then some (-(digitsToNat cs : Int)) else none
    else if c == '+' then
      if !cs.isEmpty && cs.all isDigitChar then some ((digitsToNat cs : Int)) else none
    else if (c :: cs).all isDigitChar then some ((digitsToNat (c :: cs) : Int)) else none

def pyIntParse (s : String) : Option Int := pyIntParseCore s.toList

/-- Python str.upper on the ASCII strings this program feeds it. -/
def pyUpper (s : String) : String := String.mk (s.toList.map Char.toUpper)

/-! ## SizeParser: DiskSpaceMonitor._parse_size -/

/-- Span of leading decimal digits. -/
def spanDigits : List Char → List Char × List Char
  | [] => ([], [])
  | c :: cs =>
    if isDigitChar c then
      let r := spanDigits cs
      (c :: r.1, r.2)
    else ([], c :: cs)

/-- Matcher for the number part of the anchored regular expression used by
_parse_size: one or more digits, optionally a dot followed by one or more
digits.  Returns the digit string value scaled by ten to the fraction
length, the fraction length, and the unmatched remainder. -/
def matchSizeNum (l : List Char) : Option ((Nat × Nat) × List Char) :=
  let p := spanDigits l
  if p.1.isEmpty then none
  else
    match p.2 with
    | '.' :: rest2 =>
      let q := spanDigits rest2
      if q.1.isEmpty then none
      else some ((digitsToNat (p.1 ++ q.1), q.1.length), q.2)
    | _ => some ((digitsToNat p.1, 0), p.2)

/-- Multiplier table of _parse_size.  The regular expression unit group also
matches a bare K, M, G or T, which the subsequent if chain rejects with
ValueError; both that and a regular expression mismatch are none here. -/
def unitMultiplier : String → Option Nat
  | "" => some 1
  | "B" => some 1
  | "KB" => some 1024
  | "MB" => some (1024 ^ 2)
  | "GB" => some (1024 ^ 3)
  | "TB" => some (1024 ^ 4)
  | _ => none

/-- Model of DiskSpaceMonitor._parse_size.  Python raises ValueError on a
format or unit failure; both failure modes are none here.  The source goes
through float; the decimal literal is modelled exactly and the final int
conversion truncates, which on these non-negative values is Nat division. -/
def parse_size (size_str : String) : Option Nat :=
  let s := pyUpper (pyStrip size_str)
  match matchSizeNum s.toList with
  | none => none
  | some ((scaled, fracLen), rest) =>
    let unit := String.mk (rest.dropWhile isPySpace)
    match unitMultiplier unit with
    | none => none
    | some mult => some (scaled * mult / 10 ^ fracLen)

/-! ## ByteFormatter: format_bytes_multiple_units -/

/-- The descending unit table of format_bytes_multiple_units. -/
def multiUnits : List (String × Nat) :=
  [("TB", 1024 ^ 4), ("GB", 1024 ^ 3), ("MB", 1024 ^ 2), ("KB", 1024), ("B", 1)]

/-- The loop of format_bytes_multiple_units, kept as data: for each unit in
order, if the remaining byte count is at least the unit size, emit the unit
together with the integer quotient and continue with the remainder. -/
def unitParts : List (String × Nat) → Nat → List ((String × Nat) × Nat)
  | [], _ => []
  | u :: us, r =>
    if u.2 ≤ r then (u, r / u.2) :: unitParts us (r % u.2)
    else unitParts us r

/-- The remaining byte count after the loop of format_bytes_multiple_units
has processed a unit list (proof support for the decomposition theorem). -/
def remAfter : List (String × Nat) → Nat → Nat
  | [], r => r
  | u :: us, r => if u.2 ≤ r then remAfter us (r % u.2) else remAfter us r

/-- Model of DiskSpaceMonitor.format_bytes_multiple_units. -/
def format_bytes_multiple_units (b : Nat) : String :=
  if b = 0 then "0 B"
  else
    let parts := (unitParts multiUnits b).map (fun p => toString p.2 ++ " " ++ p.1.1)
    if parts.isEmpty then "0 B" else String.intercalate " " parts

example : parse_size "10GB" = some (10 * 1024 ^ 3) := by decide
example : parse_size " 1.5 kb " = some 1536 := by decide
example : parse_size "10XB" = none := by decide
example : parse_size "10K" = none := by decide
example : format_bytes_multiple_units 0 = "0 B" := by decide
example : format_bytes_multiple_units (1024 ^ 4 + 54 * 1024 ^ 3 + 180 * 1024 ^ 2) =
    "1 TB 54 GB 180 MB" := by decide

/-! ## Exact fractions

The Python source computes free_percent and the format_bytes values in
binary floating point.  The embedding computes them as exact fractions of
integers; every value a claim exercises is exactly representable as a
double and every float operation on it is exact, so the two agree on those
inputs.  The fractions are kept unnormalised (no gcd) so that the kernel
can evaluate them. -/

/-- An exact fraction num / den.  All fractions built by the program have a
positive denominator. -/
structure Frac where
  num : Int
  den : Int
deriving DecidableEq

def Frac.ofNat (n : Nat) : Frac := ⟨n, 1⟩

def Frac.mul (a b : Frac) : Frac := ⟨a.num * b.num, a.den * b.den⟩

def Frac.div (a b : Frac) : Frac := ⟨a.num * b.den, a.den * b.num⟩

/-- Strict comparison, for fractions with positive denominators. -/
def Frac.blt (a b : Frac) : Bool := a.num * b.den < b.num * a.den

/-- Floor, for fractions with positive denominators. -/
def Frac.floor (a : Frac) : Int := Int.fdiv a.num a.den

/-- Semantic value of a fraction, for statements. -/
def Frac.toRat (a : Frac) : ℚ := (a.num : ℚ) / (a.den : ℚ)

/-! ## Fixed point rendering of the float format specifiers .1f and .2f

The source prints free_percent with one decimal place and format_bytes
values with two.  Python formatting rounds the double to the requested
number of places with ties to even; that rounding is reproduced here on
the exact values. -/

/-- Rounding to the nearest integer with ties to even, as C printf style
formatting of a double performs on the scaled value. -/
def Frac.roundHalfEven (q : Frac) : Int :=
  let f : Int := q.floor
  let r : Frac := ⟨q.num - f * q.den, q.den⟩
  if r.blt ⟨1, 2⟩ then f
  else if Frac.blt ⟨1, 2⟩ r then f + 1
  else if f % 2 = 0 then f else f + 1

/-- The format specifier .1f on a non-negative value. -/
def formatFix1 (q : Frac) : String :=
  let n := (q.mul (Frac.ofNat 10)).roundHalfEven
  toString (n / 10) ++ "." ++ toString (n % 10)

/-- The format specifier .2f on a non-negative value. -/
def formatFix2 (q : Frac) : String :=
  let n := (q.mul (Frac.ofNat 100)).roundHalfEven
  let frac := n % 100
  toString (n / 100) ++ "." ++ (if frac < 10 then "0" ++ toString frac else toString frac)

/-! ## ByteFormatter: format_bytes (single unit) -/

/-- The loop of DiskSpaceMonitor.format_bytes: walk the unit names, dividing
by 1024 until the value is below 1024, and fall back to PB. -/
def format_bytes_go : List String → Frac → String
  | [], b => formatFix2 b ++ " PB"
  | u :: us, b =>
    if b.blt (Frac.ofNat 1024) then formatFix2 b ++ " " ++ u
    else format_bytes_go us (b.div (Frac.ofNat 1024))

/-- Model of DiskSpaceMonitor.format_bytes. -/
def format_bytes (b : Frac) : String :=
  format_bytes_go ["B", "KB", "MB", "GB", "TB"] b

/-! ## VolumeChecker arithmetic and status line -/

/-- The free percentage computed in check_and_notify:
free_percent = (free_space / total_space) * 100. -/
def free_percent (free total : Frac) : Frac := (free.div total).mul (Frac.ofNat 100)

/-- The percent field of the status line, rendered with the .1f specifier. -/
def percentField (free total : Frac) : String :=
  formatFix1 (free_percent free total) ++ "%"

/-- The one line status printed per drive by check_and_notify. -/
def statusLine (path : String) (total free minB : Frac) : String :=
  "Drive " ++ path ++ ": " ++ format_bytes free ++ " free (" ++
    percentField free total ++ ") of " ++ format_bytes total ++
    " [threshold: " ++ format_bytes minB ++ "]"

example : percentField (Frac.ofNat (5 * 1024 ^ 3)) (Frac.ofNat (100 * 1024 ^ 3)) = "5.0%" := by
  decide
example : format_bytes (Frac.ofNat (5 * 1024 ^ 3)) = "5.00 GB" := by decide

/-! ## LogStore: _get_log_filename -/

/-- Path separator set of the rstrip and replace calls in _get_log_filename. -/
def isSep (c : Char) : Bool := c == '\\' || c == '/'

/-- The first two string operations of _get_log_filename: strip trailing
separators, then replace every remaining separator (backslash first, then
slash, which is one pass since both map to the same character) with an
underscore. -/
def stripReplaceSeps (s : String) : String :=
  String.mk ((s.toList.reverse.dropWhile isSep).reverse.map (fun c => if isSep c then '_' else c))

/-- Model of DiskSpaceMonitor._get_log_filename, up to the data directory
prefix and the .log extension: the stem of the per drive log file name. -/
def logFilenameStem (drive_path : String) : String :=
  let safe1 := stripReplaceSeps drive_path
  let safe2 := if safe1 == "" || safe1 == "_" then "root" else safe1
  String.mk (safe2.toList.filter (fun c => !(c == ':')))

example : logFilenameStem "C:" = "C" := by decide
example : logFilenameStem "/" = "root" := by decide
example : logFilenameStem "/mnt/data/" = "_mnt_data" := by decide
example : logFilenameStem ":" = "" := by decide

/-! ## LogStore: _parse_log_file -/

/-- Python line.split with separator a single space and maxsplit 2: break
the character list at the first space, if any. -/
def breakAtSpace : List Char → List Char × Option (List Char)
  | [] => ([], none)
  | c :: cs =>
    if c == ' ' then ([], some cs)
    else
      let r := breakAtSpace cs
      (c :: r.1, r.2)

/-- Python s.split with separator a single space and maxsplit 2: at most
three fields. -/
def pySplit2 (s : String) : List String :=
  match breakAtSpace s.toList with
  | (f1, none) => [String.mk f1]
  | (f1, some r1) =>
    match breakAtSpace r1 with
    | (f2, none) => [String.mk f1, String.mk f2]
    | (f2, some r2) => [String.mk f1, String.mk f2, String.mk r2]

/-- The timestamp shape test of _parse_log_file on a field: the field
contains a T, or has at least ten characters with a dash at indices four
and seven. -/
def looksLikeTimestampL (l : List Char) : Bool :=
  l.any (fun c => c == 'T') ||
    (decide (10 ≤ l.length) && (l.getD 4 ' ' == '-') && (l.getD 7 ' ' == '-'))

def looksLikeTimestamp (s : String) : Bool := looksLikeTimestampL s.toList

/-! Model of the library primitive datetime.fromisoformat, on the shapes the
program writes and reads: a YYYY-MM-DD date, optionally followed by one
separator character and a HH:MM or HH:MM:SS time with an optional fraction
of three or six digits.  The result is a single integer of microseconds;
the date is folded in through a uniform 31 day month encoding, which is
order isomorphic to the calendar on the validated ranges — the program
only ever compares and sorts timestamps, never takes differences of
parsed ones. -/

/-- Read exactly n decimal digits, accumulating their value. -/
def readNDigits : Nat → Nat → List Char → Option (Nat × List Char)
  | 0, acc, l => some (acc, l)
  | _ + 1, _, [] => none
  | n + 1, acc, c :: cs =>
    if isDigitChar c then readNDigits n (acc * 10 + digitVal c) cs else none

def expectChar (c : Char) : List Char → Option (List Char)
  | [] => none
  | x :: xs => if x == c then some xs else none

def microsOfPieces (y mo d h mi sec us : Nat) : Int :=
  ((((y * 372 + (mo - 1) * 31 + (d - 1)) * 86400 + h * 3600 + mi * 60 + sec) * 1000000 + us : Nat) : Int)

/-- Fraction part: a dot followed by exactly three or exactly six digits. -/
def readFraction : List Char → Option (Nat × List Char)
  | [] => some (0, [])
  | '.' :: rest => do
    let (a, r1) ← readNDigits 3 0 rest
    match r1 with
    | [] => some (a * 1000, [])
    | _ => do
      let (b, r2) ← readNDigits 3 a r1
      some (b, r2)
  | l => some (0, l)

/-- Time of day part, after the separator character. -/
def readTime (l : List Char) : Option (Nat × Nat × Nat × Nat × List Char) := do
  let (h, r1) ← readNDigits 2 0 l
  let r2 ← expectChar ':' r1
  let (mi, r3) ← readNDigits 2 0 r2
  if h < 24 ∧ mi < 60 then
    match r3 with
    | ':' :: r4 => do
      let (sec, r5) ← readNDigits 2 0 r4
      if sec < 60 then
        let (us, r6) ← readFraction r5
        some (h, mi, sec, us, r6)
      else none
    | _ => some (h, mi, 0, 0, r3)
  else none

/-- Model of datetime.fromisoformat, as a partial map from a string to a
microsecond count. -/
def fromisoformat (s : String) : Option Int := do
  let (y, r1) ← readNDigits 4 0 s.toList
  let r2 ← expectChar '-' r1
  let (mo, r3) ← readNDigits 2 0 r2
  let r4 ← expectChar '-' r3
  let (d, r5) ← readNDigits 2 0 r4
  if 1 ≤ mo ∧ mo ≤ 12 ∧ 1 ≤ d ∧ d ≤ 31 then
    match r5 with
    | [] => some (microsOfPieces y mo d 0 0 0 0)
    | _ :: r6 => do
      let (h, mi, sec, us, r7) ← readTime r6
      match r7 with
      | [] => some (microsOfPieces y mo d h mi sec us)
      | _ => none
  else none

/-- One hour, in the microsecond timestamp encoding. -/
def hourMicros : Int := 3600 * 1000000

/-- First whitespace delimited field of a line. -/
def firstField (s : String) : String := (pySplit2 s).headD ""

/-- The first pass test of _parse_log_file: the first field of the line is
not timestamp shaped and parses as an integer, so the line might be in the
old format. -/
def isOldFormatLine (s : String) : Bool :=
  !(looksLikeTimestamp (firstField s)) && (pyIntParse (firstField s)).isSome

/-- The first pass of _parse_log_file: count the old format lines, skipping
blank lines. -/
def countOldFormat : List String → Nat
  | [] => 0
  | l :: ls =>
    (if pyStrip l == "" then 0
     else if isOldFormatLine (pyStrip l) then 1 else 0) + countOldFormat ls

/-- One line of the second pass of _parse_log_file, mirroring the source
control flow.  k is the old format count from the first pass and i the
current old format index.  Returns the entry emitted for the line, if any,
together with whether the old format index advanced.  The duplicated old
format attempt mirrors the fall through from a failed new format parse. -/
def parseLineSrc (now : Int) (k i : Nat) (s : String) : Option (Int × Int) × Bool :=
  match pySplit2 s with
  | [] => (none, false)
  | [f] =>
    match pyIntParse f with
    | some b => (some (now - ((k : Int) - (i : Int)) * hourMicros, b), true)
    | none => (none, false)
  | f :: b :: _ =>
    if looksLikeTimestamp f then
      match fromisoformat f, pyIntParse b with
      | some t, some v => (some (t, v), false)
      | some _, none =>
        match pyIntParse f with
        | some w => (some (now - ((k : Int) - (i : Int)) * hourMicros, w), true)
        | none => (none, false)
      | none, _ =>
        match pyIntParse f with
        | some w => (some (now - ((k : Int) - (i : Int)) * hourMicros, w), true)
        | none => (none, false)
    else
      match pyIntParse f with
      | some w => (some (now - ((k : Int) - (i : Int)) * hourMicros, w), true)
      | none => (none, false)

/-- The second pass of _parse_log_file: walk the lines, skipping blank
ones, emitting entries and advancing the old format index. -/
def parseLog2 (now : Int) (k : Nat) : Nat → List String → List (Int × Int)
  | _, [] => []
  | i, l :: ls =>
    if pyStrip l == "" then parseLog2 now k i ls
    else
      match parseLineSrc now k i (pyStrip l) with
      | (some e, true) => e :: parseLog2 now k (i + 1) ls
      | (some e, false) => e :: parseLog2 now k i ls
      | (none, _) => parseLog2 now k i ls

/-- Model of DiskSpaceMonitor._parse_log_file on the list of lines of the
log file.  now is the ambient datetime.now() clock, held fixed for the
call.  The result pairs a microsecond timestamp with a free byte count. -/
def parse_log_file (now : Int) (lines : List String) : List (Int × Int) :=
  parseLog2 now (countOldFormat lines) 0 lines

/-! Claim side description of the parser, written from the words of the
specification: classify each stripped non blank line as legacy (its first
whitespace delimited field is a bare integer and not timestamp shaped),
current (timestamp shaped first field that parses as a timestamp, with an
integer second field), or dropped; with k legacy lines in the file, the
i-th legacy line (0 based, in file order) receives the synthetic timestamp
now - (k - i) hours and a current line keeps its written timestamp. -/

inductive LineClass where
  | legacy (b : Int)
  | current (t b : Int)
  | dropped
deriving DecidableEq

/-- Claim side classification of a stripped non blank line. -/
def classifyClaim (s : String) : LineClass :=
  match pySplit2 s with
  | [] => .dropped
  | f :: rest =>
    if (pyIntParse f).isSome && !(looksLikeTimestamp f) then
      match pyIntParse f with
      | some b => .legacy b
      | none => .dropped
    else
      match rest with
      | [] => .dropped
      | b :: _ =>
        if looksLikeTimestamp f then
          match fromisoformat f, pyIntParse b with
          | some t, some v => .current t v
          | _, _ => .dropped
        else .dropped

/-- The stripped non blank legacy lines of a file, in file order. -/
def legacyLinesOf (lines : List String) : List String :=
  ((lines.map pyStrip).filter (fun s => !(s == ""))).filter isOldFormatLine

def legacyCount (lines : List String) : Nat := (legacyLinesOf lines).length

/-- Claim side reconstruction: walk the lines with the legacy index i,
assigning the i-th legacy line the synthetic timestamp now - (k - i) hours
and keeping written timestamps on current lines. -/
def specGo (now : Int) (k : Nat) : Nat → List String → List (Int × Int)
  | _, [] => []
  | i, l :: ls =>
    if pyStrip l == "" then specGo now k i ls
    else
      match classifyClaim (pyStrip l) with
      | .legacy b => (now - ((k : Int) - (i : Int)) * hourMicros, b) :: specGo now k (i + 1) ls
      | .current t b => (t, b) :: specGo now k i ls
      | .dropped => specGo now k i ls

/-- Claim side description of the whole parse. -/
def parseLogSpec (now : Int) (lines : List String) : List (Int × Int) :=
  specGo now (legacyCount lines) 0 lines

/-- The synthetic timestamps the claim assigns to the legacy lines of a
file, in file order. -/
def legacySynthTimes (now : Int) (lines : List String) : List Int :=
  (List.range (legacyCount lines)).map
    (fun i : Nat => now - ((legacyCount lines : Int) - (i : Int)) * hourMicros)

example :
    parse_log_file 0 ["100 (100 B)", "2024-01-01T12:00:00 200 (200 B)", "", "300"] =
      [(0 - 2 * hourMicros, 100),
       (microsOfPieces 2024 1 1 12 0 0 0, 200),
       (0 - 1 * hourMicros, 300)] := by decide

example : fromisoformat "2024-01-01T12:00:00.123456" =
    some (microsOfPieces 2024 1 1 12 0 0 123456) := by decide

/-! ## NotificationLimiter: the tracking file -/

/-- State of the tracking file.  absent: the file does not exist.  corrupt:
the file exists but json.load raises (invalid encoding).  data d c: a JSON
object whose date and count fields are d and c (none models a missing
field, matching dict.get). -/
inductive TrackFile where
  | absent
  | corrupt
  | data (date : Option String) (count : Option Int)
deriving DecidableEq

/-- Model of DiskSpaceMonitor._get_notification_count_today.  today is the
ambient date.today().isoformat() value. -/
def count_today (today : String) (f : TrackFile) : Int :=
  match f with
  | .absent => 0
  | .corrupt => 0
  | .data d c => if d = some today then c.getD 0 else 0

/-- Model of DiskSpaceMonitor._increment_notification_count, returning the
new tracking file state.  On a corrupt file json.load raises, the generic
except branch prints a warning, and the file is left unchanged.  The final
write is assumed to succeed (I/O failure there is environment behaviour
outside the embedding). -/
def increment_count (today : String) (f : TrackFile) : TrackFile :=
  match f with
  | .corrupt => .corrupt
  | .absent => .data (some today) (some 1)
  | .data d c =>
    if d = some today then .data d (some (c.getD 0 + 1))
    else .data (some today) (some 1)

example : count_today "2026-10-12" (.data (some "2026-10-11") (some 7)) = 0 := by decide
example : increment_count "2026-10-12" (.data (some "2026-10-11") (some 7)) =
    .data (some "2026-10-12") (some 1) := by decide

/-! ## Notifier: send_pushover_notification -/

/-- Observable outcome of send_pushover_notification: whether the external
HTTP call was attempted, the boolean return value, and the tracking file
state afterwards. -/
structure SendResult where
  attempted : Bool
  ok : Bool
  tracker : TrackFile
deriving DecidableEq

/-- Model of DiskSpaceMonitor.send_pushover_notification.  httpSuccess is
the outcome of the external POST (a 2xx response and no transport error);
it is only consulted when the call is attempted. -/
def send_pushover_notification (maxPerDay : Option Int) (today : String)
    (tr : TrackFile) (httpSuccess : Bool) : SendResult :=
  match maxPerDay with
  | some m =>
    if m ≤ count_today today tr then { attempted := false, ok := false, tracker := tr }
    else if httpSuccess then { attempted := true, ok := true, tracker := increment_count today tr }
    else { attempted := true, ok := false, tracker := tr }
  | none =>
    if httpSuccess then { attempted := true, ok := true, tracker := tr }
    else { attempted := true, ok := false, tracker := tr }

/-! ## VolumeChecker: check_and_notify

The per volume loop is modelled on the list of configured drives paired
with the outcome of their shutil.disk_usage query (none when get_disk_space
caught an exception and returned None).  Logging, chart rendering and the
notification call each swallow their own errors in the source and do not
affect the control flow, so the loop is observed through the status lines
it prints.  The division free / total raises ZeroDivisionError in Python
when total is zero; that raise is the error case of the Except, carrying
the status lines printed before it.  Lean itself would return zero for the
division, so the guard makes the modelled control flow explicit. -/

structure DiskInfo where
  total : Nat
  used : Nat
  free : Nat
deriving DecidableEq

structure VolumeCheck where
  path : String
  minimum_bytes : Nat
  query : Option DiskInfo
deriving DecidableEq

/-- The status line check_and_notify prints for a drive whose query
succeeded. -/
def volumeStatusLine (v : VolumeCheck) (d : DiskInfo) : String :=
  statusLine v.path (Frac.ofNat d.total) (Frac.ofNat d.free) (Frac.ofNat v.minimum_bytes)

/-- Model of DiskSpaceMonitor.check_and_notify.  ok: the loop ran to
completion, with the printed status lines.  error: an unguarded
ZeroDivisionError escaped, after printing the carried lines. -/
def check_and_notify : List VolumeCheck → Except (List String) (List String)
  | [] => .ok []
  | v :: rest =>
    match v.query with
    | none => check_and_notify rest
    | some d =>
      if d.total = 0 then .error []
      else
        match check_and_notify rest with
        | .ok ls => .ok (volumeStatusLine v d :: ls)
        | .error ls => .error (volumeStatusLine v d :: ls)

/-- A volume whose processing cannot raise: the query failed (and is
skipped) or returned a positive total. -/
def safeVol (v : VolumeCheck) : Bool :=
  match v.query with
  | none => true
  | some d => !(d.total == 0)

/-- The status lines of a list of volumes that all process without
raising. -/
def volLines : List VolumeCheck → List String
  | [] => []
  | v :: rest =>
    match v.query with
    | none => volLines rest
    | some d => if d.total = 0 then volLines rest else volumeStatusLine v d :: volLines rest

/-! ## Configuration loading and the entry point -/

/-- One element of the drives list of the settings document.  none models a
missing field (dict.get returning None). -/
structure DriveEntry where
  path : Option String
  minimum_disk_space : Option String
deriving DecidableEq

/-- The settings fields the constructor of DiskSpaceMonitor validates. -/
structure Settings where
  pushover_token : Option String
  pushover_user : Option String
  drives : List DriveEntry
deriving DecidableEq

/-- A missing or empty string field, the Python falsiness test used by the
constructor. -/
def falsyStr : Option String → Bool
  | none => true
  | some s => s == ""

/-- Model of DiskSpaceMonitor._parse_drives_config.  Every drive must carry
a truthy path and a truthy, parseable minimum_disk_space; the first
violation raises ValueError. -/
def parse_drives_config : List DriveEntry → Except String (List (String × Nat))
  | [] => .ok []
  | d :: ds =>
    match d.path with
    | none => .error "Drive configuration must include path field"
    | some p =>
      if p == "" then .error "Drive configuration must include path field"
      else
        match d.minimum_disk_space with
        | none => .error "Drive must specify minimum_disk_space threshold"
        | some ms =>
          if ms == "" then .error "Drive must specify minimum_disk_space threshold"
          else
            match parse_size ms with
            | none => .error "Invalid size format"
            | some b =>
              match parse_drives_config ds with
              | .ok rest => .ok ((p, b) :: rest)
              | .error e => .error e

/-- Model of the validation performed by the DiskSpaceMonitor constructor,
in source order: parse the drives configuration, then require the
credentials, then require a non empty drives list. -/
def monitor_init_validate (s : Settings) : Except String (List (String × Nat)) :=
  match parse_drives_config s.drives with
  | .error e => .error e
  | .ok drives =>
    if falsyStr s.pushover_token || falsyStr s.pushover_user then
      .error "Pushover token and user key are required"
    else if drives.isEmpty then .error "At least one drive must be specified"
    else .ok drives

/-- Outcome of load_settings for the main function: the settings file was
missing, held invalid JSON, or loaded. -/
inductive LoadOutcome where
  | fileNotFound
  | jsonDecodeError
  | loaded (s : Settings)
deriving DecidableEq

/-- Model of the main function: its Python return value.  Every except
branch returns 1; a completed check returns 0.  The run itself is modelled
as completing, matching the claim premise of a completed check. -/
def main (o : LoadOutcome) : Nat :=
  match o with
  | .fileNotFound => 1
  | .jsonDecodeError => 1
  | .loaded s =>
    match monitor_init_validate s with
    | .error _ => 1
    | .ok _ => 0

/-- Model of the module guard.  The last line of the file is a bare call
main() with the return value discarded and no sys.exit, so the interpreter
always exits with status zero once main returns. -/
def script_exit_code (o : LoadOutcome) : Nat :=
  match main o with
  | _ => 0

/-! # Concrete settings documents used by the entry point theorem -/

/-- Settings with the pushover_token field missing. -/
def settingsNoToken : Settings :=
  { pushover_token := none, pushover_user := some "u",
    drives := [{ path := some "/", minimum_disk_space := some "10GB" }] }

/-- Settings with an empty drives list. -/
def settingsNoDrives : Settings :=
  { pushover_token := some "t", pushover_user := some "u", drives := [] }

/-- Settings with an unparseable size threshold. -/
def settingsBadSize : Settings :=
  { pushover_token := some "t", pushover_user := some "u",
    drives := [{ path := some "/", minimum_disk_space := some "abc" }] }

/-- A fully valid settings document. -/
def settingsValid : Settings :=
  { pushover_token := some "t", pushover_user := some "u",
    drives := [{ path := some "/", minimum_disk_space := some "10GB" }] }

/-! # Theorems for the specification claims -/

/-- C6: _parse_size maps the documented size strings to their binary
multiplier byte counts, and rejects strings off the grammar or with an
unrecognised unit.  The general failure clause is carried by the
definition itself: parse_size returns a value only when the anchored
number and unit matcher succeeds and the unit is one of the six recognised
ones, and returns none otherwise. -/
theorem C6_size_parser_values :
    parse_size "10GB" = some (10 * 1024 ^ 3)
    ∧ parse_size "500MB" = some (500 * 1024 ^ 2)
    ∧ parse_size "1TB" = some (1024 ^ 4)
    ∧ parse_size "0B" = some 0
    ∧ parse_size "0" = some 0
    ∧ parse_size "1KB" = some 1024
    ∧ parse_size "10XB" = none
    ∧ parse_size "abc" = none
    ∧ parse_size "" = none := by
  decide

/-- C1: evaluation of the entry point at failing and succeeding
configurations.  The main function returns 1 on a missing settings file,
invalid JSON, missing credentials, an empty drives list and an unparseable
size threshold, and 0 on a completed check — but the module guard
discards that return value, so the interpreter exit status is 0 in every
case, contradicting the claimed non-zero exit on configuration errors. -/
theorem C1_exit_code_evaluation :
    main .fileNotFound = 1
    ∧ script_exit_code .fileNotFound = 0
    ∧ main .jsonDecodeError = 1
    ∧ script_exit_code .jsonDecodeError = 0
    ∧ main (.loaded settingsNoToken) = 1
    ∧ script_exit_code (.loaded settingsNoToken) = 0
    ∧ main (.loaded settingsNoDrives) = 1
    ∧ script_exit_code (.loaded settingsNoDrives) = 0
    ∧ main (.loaded settingsBadSize) = 1
    ∧ script_exit_code (.loaded settingsBadSize) = 0
    ∧ main (.loaded settingsValid) = 0
    ∧ script_exit_code (.loaded settingsValid) = 0 := by
  decide

/-- C9 counterexample: at total 100 GB and free 5 GB the percent field of
the status line renders as 5.0 percent with one decimal place, not the
claimed 5.00 with two (the source formats free_percent with the .1f
specifier). -/
theorem C9_counterexample_one_decimal :
    percentField (Frac.ofNat (5 * 1024 ^ 3)) (Frac.ofNat (100 * 1024 ^ 3)) = "5.0%" := by
  decide

/-- C9 amended: the free percentage is computed as free / total * 100,
equal to exactly 5 at total 100 GB and free 5 GB, and the status line
reports it as 5.0 percent, rendered with one decimal place. -/
theorem C9_amended_status_percent :
    (free_percent (Frac.ofNat (5 * 1024 ^ 3)) (Frac.ofNat (100 * 1024 ^ 3))).toRat = 5
    ∧ percentField (Frac.ofNat (5 * 1024 ^ 3)) (Frac.ofNat (100 * 1024 ^ 3)) = "5.0%"
    ∧ statusLine "/" (Frac.ofNat (100 * 1024 ^ 3)) (Frac.ofNat (5 * 1024 ^ 3))
        (Frac.ofNat (10 * 1024 ^ 3)) =
        "Drive /: 5.00 GB free (5.0%) of 100.00 GB [threshold: 10.00 GB]" := by
  refine ⟨?_, by decide, by decide⟩
  norm_num [free_percent, Frac.div, Frac.mul, Frac.toRat, Frac.ofNat]

/-- C8 counterexample: the drive path made of a single colon derives an
empty log file stem, refuting the claim that the derived name is never
empty (the source maps an empty result to root before stripping colons,
not after). -/
theorem C8_counterexample_empty_stem :
    logFilenameStem ":" = "" := by
  decide

/-- C8 amended: the derived stem strips trailing separators, replaces the
remaining separators with underscores, maps an empty or single underscore
result to root, and then strips colons; it is empty exactly when the
separator stripped and replaced path is a non empty, non underscore string
of colons. -/
theorem C8_amended_filename_stem (p : String) :
    logFilenameStem p = "" ↔
      (stripReplaceSeps p ≠ "" ∧ stripReplaceSeps p ≠ "_" ∧
        (stripReplaceSeps p).toList.all (fun c => c == ':') = true) := by
  unfold logFilenameStem
  by_cases h1 : stripReplaceSeps p = ""
  · simp [h1]
  · by_cases h2 : stripReplaceSeps p = "_"
    · simp [h2]
    · have hb : (stripReplaceSeps p == "" || stripReplaceSeps p == "_") = false := by
        simp [h1, h2]
      simp only [hb, Bool.false_eq_true, if_false]
      constructor
      · intro h
        refine ⟨h1, h2, ?_⟩
        have hl : (stripReplaceSeps p).toList.filter (fun c => !(c == ':')) = [] := by
          have := congrArg String.data h
          simpa using this
        rw [List.filter_eq_nil_iff] at hl
        rw [List.all_eq_true]
        intro c hc
        have := hl c hc
        simpa using this
      · rintro ⟨-, -, hall⟩
        rw [List.all_eq_true] at hall
        have hl : (stripReplaceSeps p).toList.filter (fun c => !(c == ':')) = [] := by
          rw [List.filter_eq_nil_iff]
          intro c hc
          simp [hall c hc]
        show String.mk _ = ""
        rw [hl]

/-- C5 counterexample: with no daily cap configured, a send whose external
call succeeds returns true but leaves the tracking file untouched, so the
persisted count does not reflect the successful send — record_send is not
called (the source increments only when max_push_notifications_per_day is
set), refuting the for every configuration clause. -/
theorem C5_counterexample_no_record_without_cap :
    (send_pushover_notification none "2026-10-12" TrackFile.absent true).ok = true
    ∧ (send_pushover_notification none "2026-10-12" TrackFile.absent true).tracker
        = TrackFile.absent
    ∧ increment_count "2026-10-12" TrackFile.absent
        = TrackFile.data (some "2026-10-12") (some 1)
    ∧ count_today "2026-10-12"
        (send_pushover_notification none "2026-10-12" TrackFile.absent true).tracker = 0 := by
  decide

/-- C5 amended: when a daily cap is set and the cap admits the send, a
confirmed success records the send in the tracking file and returns true;
when no cap is set, a confirmed success returns true without recording. -/
theorem C5_amended_record_on_success (today : String) (tr : TrackFile) (m : Int)
    (h : count_today today tr < m) :
    send_pushover_notification (some m) today tr true =
      { attempted := true, ok := true, tracker := increment_count today tr }
    ∧ send_pushover_notification none today tr true =
      { attempted := true, ok := true, tracker := tr } := by
  constructor
  · simp [send_pushover_notification, not_le.mpr h]
  · simp [send_pushover_notification]

/-- Witness for the amended C5 theorem at a concrete state. -/
theorem C5_amended_record_on_success_witness :
    send_pushover_notification (some 1) "2026-10-12" TrackFile.absent true =
      { attempted := true, ok := true, tracker := increment_count "2026-10-12" TrackFile.absent }
    ∧ send_pushover_notification none "2026-10-12" TrackFile.absent true =
      { attempted := true, ok := true, tracker := TrackFile.absent } :=
  C5_amended_record_on_success "2026-10-12" TrackFile.absent 1 (by decide)

/-- C4: the daily cap gate of send_pushover_notification.  With no cap the
external call is always attempted; with a cap it is attempted exactly when
the count so far is below the cap, otherwise the function returns false
with the tracking state untouched and no HTTP attempt; with a cap of zero
and a non negative persisted count (counts are non negative in every state
the program itself writes) the call is never attempted. -/
theorem C4_daily_cap_gate (today : String) (tr : TrackFile) (hs : Bool) :
    (send_pushover_notification none today tr hs).attempted = true
    ∧ (∀ m : Int, ((send_pushover_notification (some m) today tr hs).attempted = true
        ↔ count_today today tr < m))
    ∧ (∀ m : Int, m ≤ count_today today tr →
        send_pushover_notification (some m) today tr hs =
          { attempted := false, ok := false, tracker := tr })
    ∧ (0 ≤ count_today today tr →
        (send_pushover_notification (some 0) today tr hs).attempted = false) := by
  refine ⟨?_, fun m => ?_, fun m hm => ?_, fun h0 => ?_⟩
  · cases hs <;> simp [send_pushover_notification]
  · by_cases hlt : count_today today tr < m
    · cases hs <;> simp [send_pushover_notification, not_le.mpr hlt, hlt]
    · simp [send_pushover_notification, not_lt.mp hlt, hlt]
  · simp [send_pushover_notification, hm]
  · simp [send_pushover_notification, h0]

/-- Witness for the C4 theorem at a concrete state with one send recorded
today. -/
theorem C4_daily_cap_gate_witness :
    (send_pushover_notification none "2026-10-12"
        (TrackFile.data (some "2026-10-12") (some 1)) true).attempted = true
    ∧ (send_pushover_notification (some 3) "2026-10-12"
        (TrackFile.data (some "2026-10-12") (some 1)) true).attempted = true
    ∧ send_pushover_notification (some 1) "2026-10-12"
        (TrackFile.data (some "2026-10-12") (some 1)) true =
        { attempted := false, ok := false,
          tracker := TrackFile.data (some "2026-10-12") (some 1) }
    ∧ (send_pushover_notification (some 0) "2026-10-12"
        (TrackFile.data (some "2026-10-12") (some 1)) true).attempted = false :=
  ⟨(C4_daily_cap_gate "2026-10-12" (TrackFile.data (some "2026-10-12") (some 1)) true).1,
   ((C4_daily_cap_gate "2026-10-12" (TrackFile.data (some "2026-10-12") (some 1)) true).2.1 3).mpr
     (by decide),
   (C4_daily_cap_gate "2026-10-12" (TrackFile.data (some "2026-10-12") (some 1)) true).2.2.1 1
     (by decide),
   (C4_daily_cap_gate "2026-10-12" (TrackFile.data (some "2026-10-12") (some 1)) true).2.2.2
     (by decide)⟩

/-- Iterating record_send on a same day record adds one per call. -/
lemma iterate_increment_data (today : String) (m : Int) (n : Nat) :
    (increment_count today)^[n] (.data (some today) (some m)) =
      .data (some today) (some (m + n)) := by
  induction n generalizing m with
  | zero => simp
  | succ n ih =>
    rw [Function.iterate_succ_apply]
    have hstep : increment_count today (.data (some today) (some m)) =
        .data (some today) (some (m + 1)) := by
      simp [increment_count]
    rw [hstep, ih]
    simp only [TrackFile.data.injEq, Option.some.injEq, true_and]
    push_cast
    ring

/-- C3: the persisted notification count never spans a day boundary.  A
stored record for a different date reads as zero regardless of its count;
record_send on a different date resets to the fresh record for today
before incrementing; and n record_send calls on one day, from any
readable state that reads as zero, yield a count of n. -/
theorem C3_day_boundary (today : String) :
    (∀ d c, d ≠ some today → count_today today (.data d c) = 0)
    ∧ (∀ d c, d ≠ some today →
        increment_count today (.data d c) = .data (some today) (some 1))
    ∧ (∀ f : TrackFile, f ≠ .corrupt → count_today today f = 0 →
        ∀ n : Nat, count_today today ((increment_count today)^[n] f) = n) := by
  refine ⟨fun d c hd => ?_, fun d c hd => ?_, fun f hf h0 n => ?_⟩
  · simp [count_today, hd]
  · simp [increment_count, hd]
  · cases f with
    | corrupt => exact absurd rfl hf
    | absent =>
      cases n with
      | zero => simp [count_today]
      | succ n =>
        rw [Function.iterate_succ_apply]
        have hstep : increment_count today .absent = .data (some today) (some 1) := rfl
        rw [hstep, iterate_increment_data]
        simp [count_today]
        omega
    | data d c =>
      by_cases hd : d = some today
      · subst hd
        have hc : c.getD 0 = 0 := by simpa [count_today] using h0
        cases n with
        | zero => simpa [count_today] using h0
        | succ n =>
          rw [Function.iterate_succ_apply]
          have hstep : increment_count today (.data (some today) c) =
              .data (some today) (some 1) := by
            simp [increment_count, hc]
          rw [hstep, iterate_increment_data]
          simp [count_today]
          omega
      · cases n with
        | zero => simpa [count_today] using h0
        | succ n =>
          rw [Function.iterate_succ_apply]
          have hstep : increment_count today (.data d c) =
              .data (some today) (some 1) := by
            simp [increment_count, hd]
          rw [hstep, iterate_increment_data]
          simp [count_today]
          omega

/-- Witness for the C3 theorem: a stale record reads as zero, record_send
resets it, and three same day calls from an absent file count to three. -/
theorem C3_day_boundary_witness :
    count_today "2026-10-12" (.data (some "2026-10-11") (some 7)) = 0
    ∧ increment_count "2026-10-12" (.data (some "2026-10-11") (some 7)) =
        .data (some "2026-10-12") (some 1)
    ∧ count_today "2026-10-12" ((increment_count "2026-10-12")^[3] TrackFile.absent) = 3 :=
  ⟨(C3_day_boundary "2026-10-12").1 _ _ (by decide),
   (C3_day_boundary "2026-10-12").2.1 _ _ (by decide),
   (C3_day_boundary "2026-10-12").2.2 TrackFile.absent (by decide) (by decide) 3⟩

/-- The loop invariant of format_bytes_multiple_units: the emitted
components plus the final remainder reconstruct the input. -/
lemma unitParts_sum (us : List (String × Nat)) (r : Nat) :
    ((unitParts us r).map (fun p => p.1.2 * p.2)).sum + remAfter us r = r := by
  induction us generalizing r with
  | nil => simp [unitParts, remAfter]
  | cons u us ih =>
    by_cases h : u.2 ≤ r
    · simp only [unitParts, remAfter, if_pos h, List.map_cons, List.sum_cons]
      have h1 := ih (r % u.2)
      have h2 := Nat.div_add_mod r u.2
      omega
    · simp only [unitParts, remAfter, if_neg h]
      exact ih r

/-- A unit list ending in the unit of size one leaves no remainder. -/
lemma remAfter_append_one (us : List (String × Nat)) (r : Nat) :
    remAfter (us ++ [("B", 1)]) r = 0 := by
  induction us generalizing r with
  | nil =>
    simp only [List.nil_append, remAfter]
    split <;> omega
  | cons u us ih =>
    simp only [List.cons_append, remAfter]
    split
    · exact ih _
    · exact ih _

/-- Every emitted component of the loop is positive when every unit size
is. -/
lemma unitParts_snd_pos (us : List (String × Nat)) (h : ∀ u ∈ us, 0 < u.2) (r : Nat) :
    ((unitParts us r).map Prod.snd).contains 0 = false := by
  induction us generalizing r with
  | nil => rfl
  | cons u us ih =>
    have hu : 0 < u.2 := h u (by simp)
    have hrec := fun r => ih (fun x hx => h x (by simp [hx])) r
    by_cases hle : u.2 ≤ r
    · have hdiv : 0 < r / u.2 := Nat.div_pos hle hu
      simp only [unitParts, if_pos hle, List.map_cons, List.contains_cons]
      rw [hrec]
      simp
      omega
    · simp only [unitParts, if_neg hle]
      exact hrec r

/-- The emitted units are a subsequence of the unit table, hence in its
descending order. -/
lemma unitParts_sublist (us : List (String × Nat)) (r : Nat) :
    List.Sublist ((unitParts us r).map Prod.fst) us := by
  induction us generalizing r with
  | nil => simp [unitParts]
  | cons u us ih =>
    by_cases hle : u.2 ≤ r
    · simp only [unitParts, if_pos hle, List.map_cons]
      exact List.Sublist.cons₂ u (ih _)
    · simp only [unitParts, if_neg hle]
      exact List.Sublist.cons u (ih r)

/-- C7: the multi unit formatter decomposes its input exactly — the sum of
unit value times printed count over the emitted components equals the
input, no emitted component is zero, the components follow the descending
TB GB MB KB B order of the unit table by integer division and remainder,
and zero renders as 0 B. -/
theorem C7_multi_unit_decomposition (b : Nat) :
    ((unitParts multiUnits b).map (fun p => p.1.2 * p.2)).sum = b
    ∧ ((unitParts multiUnits b).map Prod.snd).contains 0 = false
    ∧ List.Sublist ((unitParts multiUnits b).map Prod.fst) multiUnits
    ∧ format_bytes_multiple_units 0 = "0 B" := by
  refine ⟨?_, unitParts_snd_pos multiUnits (by decide) b, unitParts_sublist multiUnits b,
    by decide⟩
  have h1 := unitParts_sum multiUnits b
  have h2 : remAfter multiUnits b = 0 := by
    have hsplit : multiUnits =
        [("TB", 1024 ^ 4), ("GB", 1024 ^ 3), ("MB", 1024 ^ 2), ("KB", 1024)] ++ [("B", 1)] :=
      rfl
    rw [hsplit]
    exact remAfter_append_one _ b
  omega

/-- A list of safe volumes processes to completion, printing exactly the
status lines of the successfully queried volumes. -/
lemma check_and_notify_safe (l : List VolumeCheck) (h : l.all safeVol = true) :
    check_and_notify l = .ok (volLines l) := by
  induction l with
  | nil => rfl
  | cons v rest ih =>
    rw [List.all_cons, Bool.and_eq_true] at h
    obtain ⟨hv, hrest⟩ := h
    cases hq : v.query with
    | none => simp [check_and_notify, volLines, hq, ih hrest]
    | some d =>
      have hnz : d.total ≠ 0 := by
        simpa [safeVol, hq] using hv
      simp [check_and_notify, volLines, hq, hnz, ih hrest]

/-- After a safe prefix, a successfully queried volume with a zero total
aborts the loop, carrying only the lines printed for the prefix. -/
lemma check_and_notify_error_at (pre : List VolumeCheck) (v : VolumeCheck)
    (post : List VolumeCheck) (d : DiskInfo) (hq : v.query = some d) (hz : d.total = 0)
    (hsafe : pre.all safeVol = true) :
    check_and_notify (pre ++ v :: post) = .error (volLines pre) := by
  induction pre with
  | nil => simp [check_and_notify, volLines, hq, hz]
  | cons u pre ih =>
    rw [List.all_cons, Bool.and_eq_true] at hsafe
    obtain ⟨hu, hpre⟩ := hsafe
    cases hqu : u.query with
    | none => simp [check_and_notify, volLines, hqu, ih hpre]
    | some du =>
      have hnz : du.total ≠ 0 := by
        simpa [safeVol, hqu] using hu
      simp [check_and_notify, volLines, hqu, hnz, ih hpre]

/-- C10: the free over total division has no zero guard.  A volume whose
query returns a zero total makes the per volume loop raise after any safe
prefix, so the volumes after it are never processed and no line is printed
for it, while a volume whose query failed is skipped with the rest still
processed; when every successful query has a positive total the loop
completes normally. -/
theorem C10_zero_total_aborts (pre post : List VolumeCheck) (v : VolumeCheck) (d : DiskInfo)
    (hq : v.query = some d) (hz : d.total = 0) (hsafe : pre.all safeVol = true) :
    check_and_notify (pre ++ v :: post) = .error (volLines pre)
    ∧ (∀ w : VolumeCheck, w.query = none →
        ∀ rest, check_and_notify (w :: rest) = check_and_notify rest)
    ∧ (∀ l : List VolumeCheck, l.all safeVol = true →
        check_and_notify l = .ok (volLines l)) := by
  refine ⟨check_and_notify_error_at pre v post d hq hz hsafe, fun w hw rest => ?_,
    fun l hl => check_and_notify_safe l hl⟩
  simp [check_and_notify, hw]

/-- Witness for the C10 theorem on a three volume run whose middle volume
reports a zero total. -/
theorem C10_zero_total_aborts_witness :
    check_and_notify
        ([⟨"/", 0, some ⟨10, 5, 5⟩⟩] ++
          ⟨"/dead", 0, some ⟨0, 0, 0⟩⟩ :: [⟨"/e", 0, some ⟨10, 5, 5⟩⟩]) =
      .error (volLines [⟨"/", 0, some ⟨10, 5, 5⟩⟩]) :=
  (C10_zero_total_aborts [⟨"/", 0, some ⟨10, 5, 5⟩⟩] [⟨"/e", 0, some ⟨10, 5, 5⟩⟩]
    ⟨"/dead", 0, some ⟨0, 0, 0⟩⟩ ⟨0, 0, 0⟩ rfl rfl (by decide)).1

/-- A decimal digit is neither the letter T nor a dash. -/
lemma isDigitChar_ne (c : Char) (h : isDigitChar c = true) :
    (c == 'T') = false ∧ (c == '-') = false := by
  constructor <;> rw [beq_eq_false_iff_ne] <;> rintro rfl <;> exact absurd h (by decide)

/-- Indexing into an all digit list yields a digit. -/
lemma allDigits_getD (l : List Char) (h : l.all isDigitChar = true) (i : Nat)
    (hi : i < l.length) : isDigitChar (l.getD i ' ') = true := by
  induction l generalizing i with
  | nil => simp at hi
  | cons c cs ih =>
    rw [List.all_cons, Bool.and_eq_true] at h
    cases i with
    | zero => simpa [List.getD] using h.1
    | succ i =>
      simp only [List.getD_cons_succ]
      exact ih h.2 i (by simpa using hi)

/-- An all digit list contains no letter T. -/
lemma allDigits_noT (l : List Char) (h : l.all isDigitChar = true) :
    (l.any (fun c => c == 'T')) = false := by
  induction l with
  | nil => rfl
  | cons c cs ih =>
    rw [List.all_cons, Bool.and_eq_true] at h
    rw [List.any_cons, (isDigitChar_ne c h.1).1, ih h.2]
    rfl

/-- A list whose head is not the letter T and whose tail is all digits is
not timestamp shaped: it contains no T, and the characters at indices four
and seven, when present, are digits, not dashes. -/
lemma notT_tailDigits_not_ts (c : Char) (cs : List Char)
    (hc : (c == 'T') = false) (hcs : cs.all isDigitChar = true) :
    looksLikeTimestampL (c :: cs) = false := by
  unfold looksLikeTimestampL
  rw [List.any_cons, hc, allDigits_noT cs hcs]
  by_cases hlen : 10 ≤ (c :: cs).length
  · have h3 : 3 < cs.length := by
      simp only [List.length_cons] at hlen
      omega
    have h4 : (c :: cs).getD 4 ' ' = cs.getD 3 ' ' := rfl
    have hd : isDigitChar (cs.getD 3 ' ') = true := allDigits_getD cs hcs 3 h3
    rw [h4, (isDigitChar_ne _ hd).2]
    simp
  · have hdec : decide (10 ≤ (c :: cs).length) = false := by
      simpa using hlen
    rw [hdec]
    rfl

/-- A field the Python int builtin accepts is not timestamp shaped. -/
lemma intParseCore_not_timestamp (l : List Char)
    (h : (pyIntParseCore l).isSome = true) : looksLikeTimestampL l = false := by
  cases l with
  | nil => simp [pyIntParseCore] at h
  | cons c cs =>
    simp only [pyIntParseCore] at h
    split_ifs at h with h1 h2 h3 h4 h5
    · have hc : c = '-' := by simpa using h1
      subst hc
      exact notT_tailDigits_not_ts _ _ (by decide) (by
        rw [Bool.and_eq_true] at h2
        exact h2.2)
    · simp at h
    · have hc : c = '+' := by simpa using h3
      subst hc
      exact notT_tailDigits_not_ts _ _ (by decide) (by
        rw [Bool.and_eq_true] at h4
        exact h4.2)
    · simp at h
    · rw [List.all_cons, Bool.and_eq_true] at h5
      exact notT_tailDigits_not_ts _ _ (isDigitChar_ne c h5.1).1 h5.2
    · simp at h

/-- String form of the previous lemma. -/
lemma intParse_not_timestamp (s : String) (h : (pyIntParse s).isSome = true) :
    looksLikeTimestamp s = false :=
  intParseCore_not_timestamp s.toList h

/-- The source control flow of one line of the second pass agrees with the
claim side classification of the line: the fall through from a failed new
format parse can only drop the line, because a timestamp shaped first
field never parses as an integer. -/
lemma parseLineSrc_eq_classify (now : Int) (k i : Nat) (s : String) :
    parseLineSrc now k i s =
      (match classifyClaim s with
       | .legacy b => (some (now - ((k : Int) - (i : Int)) * hourMicros, b), true)
       | .current t b => (some (t, b), false)
       | .dropped => (none, false)) := by
  rcases hsp : pySplit2 s with - | ⟨f, rest⟩
  · simp [parseLineSrc, classifyClaim, hsp]
  · rcases rest with - | ⟨b, rest2⟩
    · cases hint : pyIntParse f with
      | some w =>
        have hts := intParse_not_timestamp f (by simp [hint])
        simp [parseLineSrc, classifyClaim, hsp, hint, hts]
      | none => simp [parseLineSrc, classifyClaim, hsp, hint]
    · by_cases hts : looksLikeTimestamp f = true
      · have hint : pyIntParse f = none := by
          cases hint : pyIntParse f with
          | none => rfl
          | some w =>
            have := intParse_not_timestamp f (by simp [hint])
            rw [this] at hts
            exact absurd hts (by simp)
        cases hiso : fromisoformat f with
        | some t =>
          cases hib : pyIntParse b with
          | some v => simp [parseLineSrc, classifyClaim, hsp, hts, hiso, hib, hint]
          | none => simp [parseLineSrc, classifyClaim, hsp, hts, hiso, hib, hint]
        | none => simp [parseLineSrc, classifyClaim, hsp, hts, hiso, hint]
      · rw [Bool.not_eq_true] at hts
        cases hint : pyIntParse f with
        | some w => simp [parseLineSrc, classifyClaim, hsp, hts, hint]
        | none => simp [parseLineSrc, classifyClaim, hsp, hts, hint]

/-- The second pass of the source parser equals the claim side
reconstruction, for any fixed legacy count and starting index. -/
lemma parseLog2_eq_specGo (now : Int) (k : Nat) (ls : List String) :
    ∀ i, parseLog2 now k i ls = specGo now k i ls := by
  induction ls with
  | nil => intro i; rfl
  | cons l ls ih =>
    intro i
    by_cases hb : (pyStrip l == "") = true
    · simp [parseLog2, specGo, hb, ih]
    · rw [Bool.not_eq_true] at hb
      simp only [parseLog2, specGo, hb, Bool.false_eq_true, if_false]
      rw [parseLineSrc_eq_classify]
      cases hc : classifyClaim (pyStrip l) <;> simp [hc, ih]

/-- The first pass count of the source parser equals the number of legacy
lines of the claim side classification. -/
lemma countOldFormat_eq (lines : List String) : countOldFormat lines = legacyCount lines := by
  unfold legacyCount legacyLinesOf
  induction lines with
  | nil => rfl
  | cons l ls ih =>
    by_cases hb : (pyStrip l == "") = true
    · simp [countOldFormat, hb, ih]
    · rw [Bool.not_eq_true] at hb
      by_cases ho : isOldFormatLine (pyStrip l) = true
      · simp [countOldFormat, hb, ho, ih]
        omega
      · rw [Bool.not_eq_true] at ho
        simp [countOldFormat, hb, ho, ih]

/-- A legacy classification of a line is exactly the first pass test. -/
lemma classifyClaim_legacy_iff (s : String) :
    (∃ b, classifyClaim s = .legacy b) ↔ isOldFormatLine s = true := by
  unfold classifyClaim isOldFormatLine firstField
  rcases hsp : pySplit2 s with - | ⟨f, rest⟩
  · constructor
    · rintro ⟨b, hb⟩
      simp at hb
    · intro h
      exact absurd h (by decide)
  · simp only [List.headD_cons]
    by_cases hcond : ((pyIntParse f).isSome && !looksLikeTimestamp f) = true
    · rw [Bool.and_eq_true] at hcond
      obtain ⟨hsome, hts⟩ := hcond
      rcases hv : pyIntParse f with - | w
      · rw [hv] at hsome
        simp at hsome
      · simp [hv, hts, Bool.and_comm]
    · constructor
      · rintro ⟨b, hb⟩
        exfalso
        rcases rest with - | ⟨c, rest2⟩ <;> simp only [hcond, Bool.false_eq_true, if_false] at hb
        · exact absurd hb (by simp)
        · by_cases hts : looksLikeTimestamp f = true <;>
            simp only [hts, Bool.false_eq_true, if_false, if_true] at hb
          · cases hfi : fromisoformat f <;> cases hpc : pyIntParse c <;>
              rw [hfi, hpc] at hb <;> simp at hb
          · rw [Bool.not_eq_true] at hts
            simp [hts] at hb
      · intro h
        exfalso
        rw [Bool.and_comm] at hcond
        exact hcond h

/-- C2: the dual format parser agrees with the claim side reconstruction —
with k legacy lines in a file, the i-th legacy line in file order receives
the synthetic timestamp now minus (k - i) hours while current format lines
keep their written timestamps, the synthetic timestamps are strictly
increasing in file order, and they run from k hours in the past on the
oldest legacy line to one hour in the past on the newest. -/
theorem C2_legacy_backfill (now : Int) (lines : List String) :
    parse_log_file now lines = parseLogSpec now lines
    ∧ (legacySynthTimes now lines).Pairwise (· < ·)
    ∧ (legacySynthTimes now lines).head? =
        (if legacyCount lines = 0 then none
         else some (now - (legacyCount lines : Int) * hourMicros))
    ∧ (legacySynthTimes now lines).getLast? =
        (if legacyCount lines = 0 then none else some (now - hourMicros)) := by
  refine ⟨?_, ?_, ?_, ?_⟩
  · unfold parse_log_file parseLogSpec
    rw [countOldFormat_eq]
    exact parseLog2_eq_specGo now _ lines 0
  · unfold legacySynthTimes
    rw [List.pairwise_map]
    refine (List.pairwise_lt_range _).imp ?_
    intro a b hab
    have hcast : (a : Int) < (b : Int) := by exact_mod_cast hab
    have hmul : ((legacyCount lines : Int) - b) * hourMicros <
        ((legacyCount lines : Int) - a) * hourMicros := by
      have hpos : (0 : Int) < hourMicros := by decide
      exact mul_lt_mul_of_pos_right (by omega) hpos
    omega
  · cases hk : legacyCount lines with
    | zero => simp [legacySynthTimes, hk]
    | succ n =>
      unfold legacySynthTimes
      rw [hk, List.range_succ_eq_map, List.map_cons, List.head?_cons]
      simp
  · cases hk : legacyCount lines with
    | zero => simp [legacySynthTimes, hk]
    | succ n =>
      unfold legacySynthTimes
      rw [hk, List.range_succ, List.map_append, List.map_cons, List.map_nil,
        List.getLast?_concat]
      simp only [if_neg (Nat.succ_ne_zero n), Option.some.injEq]
      push_cast
      ring

end MonitorDiskSpace
